import Mathlib

/-!
Verification development for the Teltonika device-ingestion gateway.

The repository contains several variants of the same server; the embedding
below follows the variants the claims cite:

* `parseTeltonikaData`   — src/parsers.js
* namespace `DS`         — the server in src/deviceServer.js (processBuffer,
                           processWalkTracking, its local updateWalkPath)
* namespace `US`         — the server variant embedded in src/utils.js
                           (processBuffer with rate limiting)
* namespace `DBv`        — the walk/persistence module in the second part of
                           src/database.js (saveWalkPath, updateWalkPath,
                           processWalkTracking, closeActiveWalkPaths,
                           saveDeviceData)
* namespace `DB1`        — saveDeviceData from the first part of
                           src/database.js (the UTC+3 timestamp shift)

Bytes are modelled as natural numbers below 256, buffers as lists of bytes.
JavaScript numbers are modelled as exact values: integers for timestamps and
counters, rationals for coordinates and speeds.  A JS object field that may be
absent (`undefined`) is an `Option`.  External collaborators (the Mongo store
lookup, `JSON.parse`, the haversine `calculateDistance` from the missing
`utils/geofenceUtils` module) are parameters of the definitions.
-/

/- Batteries marks the rational-number operations irreducible; concrete runs
of the embedded functions are evaluated by `decide`, which needs them to
unfold. -/
attribute [local semireducible] Rat.add Rat.mul Rat.inv Rat.sub

/-- Big-endian 16-bit read at `i`, as `buffer.readUInt16BE(i)` does. -/
def readU16BE (b : List Nat) (i : Nat) : Nat :=
  256 * b.getD i 0 + b.getD (i + 1) 0

/-- Big-endian 32-bit read at `i`, as `buffer.readUInt32BE(i)` does. -/
def readU32BE (b : List Nat) (i : Nat) : Nat :=
  16777216 * b.getD i 0 + 65536 * b.getD (i + 1) 0 +
    256 * b.getD (i + 2) 0 + b.getD (i + 3) 0

/-- Big-endian 64-bit read at `i`, as `buffer.readBigUInt64BE(i)` does. -/
def readU64BE (b : List Nat) (i : Nat) : Nat :=
  4294967296 * readU32BE b i + readU32BE b (i + 4)

/-- Two's-complement reinterpretation of a 32-bit raw value, as
`buffer.readInt32BE` yields. -/
def toInt32 (raw : Nat) : Int :=
  if raw < 2147483648 then (raw : Int) else (raw : Int) - 4294967296

/-- Two's-complement reinterpretation of a 16-bit raw value, as
`buffer.readInt16BE` yields. -/
def toInt16 (raw : Nat) : Int :=
  if raw < 32768 then (raw : Int) else (raw : Int) - 65536

/-- 4-byte big-endian encoding, as `Buffer.alloc(4); writeUInt32BE(n, 0)`. -/
def be32 (n : Nat) : List Nat :=
  [n / 16777216 % 256, n / 65536 % 256, n / 256 % 256, n % 256]

/-- The longitude/latitude conversion of `parseTeltonikaData`
(src/parsers.js lines 92-104): `raw` is the 4-byte big-endian field;
the code reads it with `readInt32BE`, takes the sign from the top bit
(`raw & 0x80000000 ? -1 : 1`) and computes `Math.abs(value) / 10000000 * sign`. -/
def decodeCoordinate (raw : Nat) : ℚ :=
  let signedVal : Int := toInt32 raw
  let sign : Int := if 2147483648 ≤ raw % 4294967296 then -1 else 1
  ((sign * |signedVal| : Int) : ℚ) / 10000000

/-- The decoding the spec sentence describes: sign from the top bit and the
magnitude from the remaining 31 bits, `sign * (raw & 0x7FFFFFFF) / 10^7`.
Stated from the spec's words for comparison with `decodeCoordinate`. -/
def specSignMagnitudeCoordinate (raw : Nat) : ℚ :=
  let sign : Int := if 2147483648 ≤ raw % 4294967296 then -1 else 1
  ((sign * (raw % 2147483648 : Nat) : Int) : ℚ) / 10000000

/-- A decoded record, mirroring the dynamic JS record object: a field that the
code may leave unassigned (`undefined`) is an `Option` that is `none`.
8-byte IO values (stored as strings in the JS) are kept as their numeric
value. -/
structure Rec where
  deviceImei : Option String := none
  timestamp : Option Int := none
  latitude : Option ℚ := none
  longitude : Option ℚ := none
  altitude : Option Int := none
  angle : Option Nat := none
  satellites : Option Nat := none
  speed : Option ℚ := none
  priority : Option Nat := none
  eventIoId : Option Nat := none
  elements : List (Nat × Nat) := []
  positionValid : Option Bool := none
  batteryLevel : Option Nat := none
  gnssStatus : Option Bool := none
  movement : Option Bool := none
  charging : Option Bool := none
  gsmSignal : Option Nat := none
  manDown : Option Bool := none
  batteryVoltage : Option Nat := none
  gnssPDOP : Option ℚ := none
  gnssHDOP : Option ℚ := none
  positionLatitude : Option ℚ := none
  positionLongitude : Option ℚ := none
  positionSpeed : Option ℚ := none
  positionAltitude : Option Int := none
  positionDirection : Option Nat := none
  movementStatus : Option Bool := none
  deriving Repr, DecidableEq

/-- `obj[id] = value` on a JS object used as a map: overwrite an existing key in
place, otherwise append. -/
def jsSetElem (l : List (Nat × Nat)) (id v : Nat) : List (Nat × Nat) :=
  if l.any (fun p => p.1 = id) then
    l.map (fun p => if p.1 = id then (id, v) else p)
  else l ++ [(id, v)]

/-- JS `a || b` on possibly-absent numbers: `0` and `undefined` are falsy. -/
def jsOrQ (a b : Option ℚ) : Option ℚ :=
  match a with
  | some x => if x = 0 then b else some x
  | none => b

/-- JS truthiness of a possibly-absent number. -/
def qTruthy : Option ℚ → Bool
  | some x => x ≠ 0
  | none => false

/-- JS `a > c` where `a` may be `undefined` (`undefined > c` is false). -/
def jsGtQ (a : Option ℚ) (c : ℚ) : Bool :=
  match a with
  | some x => decide (c < x)
  | none => false

/-- The `switch (id)` on 1-byte IO elements in `parseTeltonikaData`
(src/parsers.js lines 153-172). -/
def applyElem1 (id v : Nat) (r : Rec) : Rec :=
  let r := { r with elements := jsSetElem r.elements id v }
  if id = 113 then { r with batteryLevel := some v }
  else if id = 69 then { r with gnssStatus := some (v = 1) }
  else if id = 240 then { r with movement := some (v = 1) }
  else if id = 116 then { r with charging := some (v = 1) }
  else if id = 21 then { r with gsmSignal := some v }
  else if id = 242 then { r with manDown := some (v = 1) }
  else r

/-- The `switch (id)` on 2-byte IO elements in `parseTeltonikaData`
(src/parsers.js lines 191-201). -/
def applyElem2 (id v : Nat) (r : Rec) : Rec :=
  let r := { r with elements := jsSetElem r.elements id v }
  if id = 67 then { r with batteryVoltage := some v }
  else if id = 181 then { r with gnssPDOP := some ((v : ℚ) / 10) }
  else if id = 182 then { r with gnssHDOP := some ((v : ℚ) / 10) }
  else r

/-- The loop over 1-byte IO entries: `for (j = 0; j < count1 && index + 2 <=
buffer.length; j++)` reading `id` and a 1-byte value each turn. -/
def ioLoop1 (b : List Nat) (count idx : Nat) (r : Rec) : Rec × Nat :=
  match count with
  | 0 => (r, idx)
  | c + 1 =>
    if idx + 2 ≤ b.length then
      ioLoop1 b c (idx + 2) (applyElem1 (b.getD idx 0) (b.getD (idx + 1) 0) r)
    else (r, idx)

/-- The loop over 2-byte IO entries (`index + 3 <= buffer.length` guard,
big-endian 2-byte value). -/
def ioLoop2 (b : List Nat) (count idx : Nat) (r : Rec) : Rec × Nat :=
  match count with
  | 0 => (r, idx)
  | c + 1 =>
    if idx + 3 ≤ b.length then
      ioLoop2 b c (idx + 3) (applyElem2 (b.getD idx 0) (readU16BE b (idx + 1)) r)
    else (r, idx)

/-- The loop over 4-byte IO entries (`index + 5 <= buffer.length` guard); the
values are only stored in `elements`. -/
def ioLoop4 (b : List Nat) (count idx : Nat) (r : Rec) : Rec × Nat :=
  match count with
  | 0 => (r, idx)
  | c + 1 =>
    if idx + 5 ≤ b.length then
      ioLoop4 b c (idx + 5)
        { r with elements := jsSetElem r.elements (b.getD idx 0) (readU32BE b (idx + 1)) }
    else (r, idx)

/-- The loop over 8-byte IO entries (`index + 9 <= buffer.length` guard); the
values are only stored in `elements`. -/
def ioLoop8 (b : List Nat) (count idx : Nat) (r : Rec) : Rec × Nat :=
  match count with
  | 0 => (r, idx)
  | c + 1 =>
    if idx + 9 ≤ b.length then
      ioLoop8 b c (idx + 9)
        { r with elements := jsSetElem r.elements (b.getD idx 0) (readU64BE b (idx + 1)) }
    else (r, idx)

/-- One iteration of the record loop of `parseTeltonikaData`
(src/parsers.js lines 56-246).  Returns the parsed record (or `none` when one
of the guarded reads threw, in which case the record is skipped) together with
the index after the iteration. -/
def parseRecordAt (b : List Nat) (imei : Option String) (idx : Nat) :
    Option Rec × Nat :=
  let r : Rec :=
    { deviceImei := imei, timestamp := some 0, latitude := some 0,
      longitude := some 0, altitude := some 0, angle := some 0,
      satellites := some 0, speed := some 0, priority := some 0,
      eventIoId := some 0, elements := [] }
  if idx + 8 ≤ b.length then
    let r := { r with timestamp := some ((readU64BE b idx : Int)) }
    let idx := idx + 8
    if idx < b.length then
      let r := { r with priority := some (b.getD idx 0) }
      let idx := idx + 1
      if idx + 15 ≤ b.length then
        let r := { r with longitude := some (decodeCoordinate (readU32BE b idx)) }
        let r := { r with latitude := some (decodeCoordinate (readU32BE b (idx + 4))) }
        let r := { r with altitude := some (toInt16 (readU16BE b (idx + 8))) }
        let r := { r with angle := some (readU16BE b (idx + 10)) }
        let sats := b.getD (idx + 12) 0
        let r := { r with satellites := some sats, positionValid := some (3 ≤ sats) }
        let r := { r with speed := some ((readU16BE b (idx + 13) : ℚ)) }
        let idx := idx + 15
        if idx + 2 ≤ b.length then
          let r := { r with eventIoId := some (b.getD idx 0) }
          let idx := idx + 2
          let step1 : Rec × Nat :=
            if idx + 1 ≤ b.length then ioLoop1 b (b.getD idx 0) (idx + 1) r
            else (r, idx)
          let step2 : Rec × Nat :=
            if step1.2 + 1 ≤ b.length then
              ioLoop2 b (b.getD step1.2 0) (step1.2 + 1) step1.1
            else step1
          let step4 : Rec × Nat :=
            if step2.2 + 1 ≤ b.length then
              ioLoop4 b (b.getD step2.2 0) (step2.2 + 1) step2.1
            else step2
          let step8 : Rec × Nat :=
            if step4.2 + 1 ≤ b.length then
              ioLoop8 b (b.getD step4.2 0) (step4.2 + 1) step4.1
            else step4
          (some step8.1, step8.2)
        else (some r, idx)
      else (none, idx)
    else (none, idx)
  else (none, idx)

/-- The `for (i = 0; i < numberOfRecords1; i++)` loop: a record whose parse
threw is skipped and the loop continues at the index where the throw
happened. -/
def parseRecordsLoop (b : List Nat) (imei : Option String) :
    Nat → Nat → List Rec → List Rec
  | 0, _, acc => acc
  | n + 1, idx, acc =>
    match parseRecordAt b imei idx with
    | (some r, idx2) => parseRecordsLoop b imei n idx2 (acc ++ [r])
    | (none, idx2) => parseRecordsLoop b imei n idx2 acc

/-- `parseTeltonikaData` (src/parsers.js): header validation followed by the
record loop.  Returns `[]` on any header failure, exactly as the source
returns an empty record list. -/
def parseTeltonikaData (b : List Nat) (imei : Option String) : List Rec :=
  if b.length < 45 then []
  else
    let preamble := readU32BE b 0
    if preamble ≠ 0 then []
    else
      let dataFieldLength := readU32BE b 4
      if 783 * 255 < dataFieldLength then []
      else
        let totalPacketSize := 8 + dataFieldLength + 4
        if b.length < totalPacketSize then []
        else
          let codecID := b.getD 8 0
          if codecID ≠ 8 ∧ codecID ≠ 142 then []
          else
            let numberOfRecords1 := b.getD 9 0
            if numberOfRecords1 = 0 ∨ 255 < numberOfRecords1 then []
            else parseRecordsLoop b imei numberOfRecords1 10 []

/-- `isImeiPacket` (src/deviceServer.js lines 582-594; the copy in
src/utils.js lines 43-66 performs the same checks): a 2-byte big-endian
length between 15 and 17, the whole packet present, and only ASCII digits. -/
def isImeiPacket (b : List Nat) : Bool :=
  if b.length < 4 then false
  else
    let imeiLength := readU16BE b 0
    if 15 ≤ imeiLength ∧ imeiLength ≤ 17 ∧ imeiLength + 2 ≤ b.length then
      (List.range imeiLength).all fun k =>
        decide (48 ≤ b.getD (2 + k) 0) && decide (b.getD (2 + k) 0 ≤ 57)
    else false

/-- `parseImeiPacket`: the ASCII digits as a string. -/
def parseImeiPacket (b : List Nat) : String :=
  let imeiLength := readU16BE b 0
  String.mk (((b.drop 2).take imeiLength).map Char.ofNat)

/-- The shape of a value `JSON.parse` can return for the JSON branch of
src/deviceServer.js (lines 92-111): the fields the code reads off the parsed
object.  The parse itself is a platform function and is a parameter `jp` of
`DS.processBuffer`; `JSON.parse` throws on any buffer whose text contains an
unescaped control character, so `jp` returns `none` on every buffer that
contains a byte below 0x20 other than tab, newline and carriage return. -/
structure JsonObj where
  timestamp : Option Int := none
  positionLatitude : Option ℚ := none
  latitude : Option ℚ := none
  positionLongitude : Option ℚ := none
  longitude : Option ℚ := none
  movementStatus : Option Bool := none
  positionSpeed : Option ℚ := none
  positionValid : Option Bool := none
  positionAltitude : Option Int := none
  positionDirection : Option Nat := none
  batteryLevel : Option Nat := none
  gnssStatus : Option Bool := none
  deriving Repr, DecidableEq

namespace DS

/-- The record literal built in the JSON branch of src/deviceServer.js
(lines 98-111). -/
def jsonToRecord (imei : Option String) (j : JsonObj) : Rec :=
  { deviceImei := imei, timestamp := j.timestamp,
    positionLatitude := jsOrQ j.positionLatitude j.latitude,
    positionLongitude := jsOrQ j.positionLongitude j.longitude,
    movementStatus := j.movementStatus, positionSpeed := j.positionSpeed,
    positionValid := j.positionValid, positionAltitude := j.positionAltitude,
    positionDirection := j.positionDirection, batteryLevel := j.batteryLevel,
    gnssStatus := j.gnssStatus }

/-- Per-socket observable state of the src/deviceServer.js connection handler.
`writes` collects the byte strings passed to `safeSocketWrite`, `walkEvents`
the records handed to `processWalkTracking` in order, `saveEvents` the batches
handed to `saveDeviceData`, and `ended` whether `socket.end()` was called. -/
structure St where
  buf : List Nat := []
  deviceImei : Option String := none
  ended : Bool := false
  writes : List (List Nat) := []
  walkEvents : List Rec := []
  saveEvents : List (Option String × List Rec) := []
  deriving Repr, DecidableEq

/-- `processBuffer` of src/deviceServer.js (lines 41-185).  `jp` stands for
`JSON.parse` on the buffer's text, `known` for the repository lookup
`getDeviceInfoByDeviceId`, `serverStart` for `SERVER_START_TIME`.  The source
recursion consumes at least one byte before every recursive call, so a fuel of
one more than the buffer length (supplied by `DS.run`) never runs out. -/
def processBuffer (jp : List Nat → Option JsonObj) (known : String → Bool)
    (serverStart : Int) : Nat → St → St
  | 0, st => st
  | fuel + 1, st =>
    if st.buf.length < 2 then st
    else if isImeiPacket st.buf then
      let imei := parseImeiPacket st.buf
      let st := { st with deviceImei := some imei }
      if ¬ known imei then { st with ended := true }
      else
        let st := { st with writes := st.writes ++ [[1]] }
        let imeiLength := readU16BE st.buf 0
        let st := { st with buf := st.buf.drop (2 + imeiLength) }
        if 0 < st.buf.length then processBuffer jp known serverStart fuel st
        else st
    else
      match jp st.buf with
      | some j =>
        let record := jsonToRecord st.deviceImei j
        { st with walkEvents := st.walkEvents ++ [record],
                  saveEvents := st.saveEvents ++ [(st.deviceImei, [record])],
                  buf := [] }
      | none =>
        if 8 ≤ st.buf.length then
          if readU32BE st.buf 0 ≠ 0 then
            let st := { st with buf := st.buf.drop 1 }
            if 0 < st.buf.length then processBuffer jp known serverStart fuel st
            else st
          else
            let dataLength := readU32BE st.buf 4
            let totalLength := 8 + dataLength + 4
            if totalLength ≤ st.buf.length then
              let fullPacket := st.buf.take totalLength
              let records := parseTeltonikaData fullPacket st.deviceImei
              let st : St :=
                if 0 < records.length then
                  let newRecords := records.filter fun r =>
                    match r.timestamp with
                    | some t => decide (serverStart < t)
                    | none => false
                  let st : St :=
                    if 0 < newRecords.length then
                      let dispatched := newRecords.map fun r =>
                        { r with movementStatus := some (jsGtQ r.positionSpeed 3) }
                      { st with walkEvents := st.walkEvents ++ dispatched,
                                saveEvents :=
                                  st.saveEvents ++ [(st.deviceImei, dispatched)] }
                    else st
                  { st with writes := st.writes ++ [be32 records.length] }
                else st
              let st : St := { st with buf := st.buf.drop totalLength }
              if 0 < st.buf.length then processBuffer jp known serverStart fuel st
              else st
            else st
        else st

/-- One invocation of `processBuffer` with sufficient fuel. -/
def run (jp : List Nat → Option JsonObj) (known : String → Bool)
    (serverStart : Int) (st : St) : St :=
  processBuffer jp known serverStart (st.buf.length + 1) st

/-- The `socket.on('data')` handler (src/deviceServer.js lines 200-226):
append the chunk to the carry-over buffer, then process. -/
def onData (jp : List Nat → Option JsonObj) (known : String → Bool)
    (serverStart : Int) (st : St) (chunk : List Nat) : St :=
  run jp known serverStart { st with buf := st.buf ++ chunk }

/-- Delivery of a sequence of TCP chunks to one connection. -/
def deliver (jp : List Nat → Option JsonObj) (known : String → Bool)
    (serverStart : Int) (chunks : List (List Nat)) (st : St) : St :=
  chunks.foldl (onData jp known serverStart) st

end DS

namespace US

/-- `isRateLimited` of the server variant in src/utils.js (lines 115-131):
drop request timestamps older than the 60 s window, report whether 60 or more
remain, and otherwise record the current request.  `now` is `Date.now()`,
`reqs` the entry of `requestCounts` for this device. -/
def isRateLimited (now : Int) (reqs : List Int) : Bool × List Int :=
  let recentRequests := reqs.filter fun t => now - t < 60000
  if 60 ≤ recentRequests.length then (true, recentRequests)
  else (false, recentRequests ++ [now])

/-- Per-socket state of the src/utils.js server variant.  `reqs` is the
`requestCounts` entry for the session's device.  This variant never calls
`socket.end()` from its processing path. -/
structure St where
  buf : List Nat := []
  deviceId : Option String := none
  imeiDone : Bool := false
  reqs : List Int := []
  writes : List (List Nat) := []
  saveEvents : List (Option String × List Rec) := []
  deriving Repr, DecidableEq

/-- `processBuffer` of the src/utils.js server variant (lines 185-288).
`known` is the repository lookup, `now` is `Date.now()`.  An unknown IMEI is
still acknowledged with `0x01` and the session continues with
`deviceId = "unknown"`.  A rate-limited AVL packet is sliced off and the
function returns without recursing.  The AVL branch parses the whole buffer
and slices `totalPacketSize` bytes unconditionally. -/
def processBuffer (known : String → Bool) (now : Int) : Nat → St → St
  | 0, st => st
  | fuel + 1, st =>
    if st.buf.length < 2 then st
    else if ¬ st.imeiDone ∧ isImeiPacket st.buf then
      let imei := parseImeiPacket st.buf
      let st : St :=
        if known imei then { st with deviceId := some imei }
        else { st with deviceId := some "unknown" }
      let st : St := { st with writes := st.writes ++ [[1]] }
      let deviceIdLength := readU16BE st.buf 0
      let st : St :=
        { st with buf := st.buf.drop (2 + deviceIdLength), imeiDone := true }
      if 0 < st.buf.length then processBuffer known now fuel st else st
    else if 8 ≤ st.buf.length then
      if readU32BE st.buf 0 = 0 then
        let rl : Bool × List Int :=
          match st.deviceId with
          | some _ => isRateLimited now st.reqs
          | none => (false, st.reqs)
        let st : St := { st with reqs := rl.2 }
        if rl.1 then
          let dataFieldLength := readU32BE st.buf 4
          let totalPacketSize := 8 + dataFieldLength + 4
          { st with buf := st.buf.drop totalPacketSize }
        else
          let records := parseTeltonikaData st.buf st.deviceId
          let st : St :=
            if 0 < records.length then
              let st : St :=
                { st with saveEvents := st.saveEvents ++ [(st.deviceId, records)] }
              { st with writes := st.writes ++ [[records.length % 256]] }
            else st
          let dataFieldLength := readU32BE st.buf 4
          let totalPacketSize := 8 + dataFieldLength + 4
          let st : St := { st with buf := st.buf.drop totalPacketSize }
          if 0 < st.buf.length then processBuffer known now fuel st else st
      else
        let st : St := { st with buf := st.buf.drop 1 }
        processBuffer known now fuel st
    else st

/-- One invocation of `processBuffer` with sufficient fuel: the resync branch
recurses even onto an empty buffer, so one spare unit is added. -/
def run (known : String → Bool) (now : Int) (st : St) : St :=
  processBuffer known now (st.buf.length + 2) st

end US

/-- A coordinate point of a walk path (`{latitude, longitude, timestamp}`). -/
structure Point where
  latitude : ℚ
  longitude : ℚ
  timestamp : Int
  deriving Repr, DecidableEq

/-- A `WalkPath` document of the Mongo schema in src/database.js
(lines 162-174).  All walks of one device are modelled; the list order is the
insertion order, which is the order `findOne` scans. -/
structure Walk where
  isActive : Bool
  startTime : Int
  endTime : Option Int := none
  coordinates : List Point := []
  distance : Int := 0
  duration : Int := 0
  deriving Repr, DecidableEq

/-- `Math.round`: round half toward positive infinity. -/
def jround (q : ℚ) : Int := ⌊q + 1 / 2⌋

/-- `Math.floor((a - b) / 1000)` on integer millisecond values. -/
def jfloorDiv (x : Int) (d : Int) : Int := Int.fdiv x d

/-- JS `a || b` on possibly-absent integers (`0` and `undefined` falsy). -/
def jsOrZ (a b : Option Int) : Option Int :=
  match a with
  | some x => if x = 0 then b else some x
  | none => b

/-- JS `a || b` on possibly-absent naturals (`0` and `undefined` falsy). -/
def jsOrN (a b : Option Nat) : Option Nat :=
  match a with
  | some x => if x = 0 then b else some x
  | none => b

/-- Sum of consecutive-point distances (the `for (i = 1; ...)` loops in
`saveWalkPath` and `updateWalkPath`); `dist` is `calculateDistance` from the
`utils/geofenceUtils` module, which is not part of the sources and is kept as
a parameter. -/
def pathDistance (dist : ℚ → ℚ → ℚ → ℚ → ℚ) : List Point → ℚ
  | p :: q :: rest =>
    dist p.latitude p.longitude q.latitude q.longitude + pathDistance dist (q :: rest)
  | _ => 0

/-- Number of `isActive = true` walks of the device. -/
def countActive (walks : List Walk) : Nat := (walks.filter (·.isActive)).length

/-- Replace the first `isActive` walk (the document `findOne` returned) by its
updated version, as `activeWalkPath.save()` does. -/
def replaceFirstActive (walks : List Walk) (w : Walk) : List Walk :=
  match walks with
  | [] => []
  | x :: rest => if x.isActive then w :: rest else x :: replaceFirstActive rest w

namespace DBv

/-- `saveWalkPath` (src/database.js lines 432-498): filter out points with a
zero or missing coordinate, compute distance and duration, and insert a brand
new `WalkPath` with the given `isActive` flag.  No existing active walk is
consulted or closed.  Returns the new walk list and the saved document. -/
def saveWalkPath (dist : ℚ → ℚ → ℚ → ℚ → ℚ) (devKnown : Bool)
    (walks : List Walk) (points : List Point) (isActive : Bool)
    (startTime endTime : Option Int) : List Walk × Option Walk :=
  if ¬ devKnown then (walks, none)
  else
    let validPoints := points.filter fun p => p.latitude ≠ 0 ∧ p.longitude ≠ 0
    if validPoints.length = 0 then (walks, none)
    else
      let totalDistance : ℚ :=
        if 1 < validPoints.length then pathDistance dist validPoints else 0
      let durationInSeconds : Int :=
        if 1 < validPoints.length then
          jfloorDiv ((validPoints.getLastD ⟨0, 0, 0⟩).timestamp
            - (validPoints.headD ⟨0, 0, 0⟩).timestamp) 1000
        else 0
      let w : Walk :=
        { isActive := isActive,
          startTime := startTime.getD (validPoints.headD ⟨0, 0, 0⟩).timestamp,
          endTime := some (endTime.getD (validPoints.getLastD ⟨0, 0, 0⟩).timestamp),
          coordinates := validPoints,
          distance := jround totalDistance,
          duration := durationInSeconds }
      (walks ++ [w], some w)

/-- `updateWalkPath` (src/database.js lines 597-684), one successful attempt:
extend the device's first active walk by the point, recomputing distance over
all coordinates and the duration from the walk's start, re-asserting
`isActive = true`; when no active walk exists, create a fresh active one. -/
def updateWalkPath (dist : ℚ → ℚ → ℚ → ℚ → ℚ) (devKnown : Bool)
    (walks : List Walk) (latitude longitude : ℚ) (timestamp : Int) :
    List Walk × Option Walk :=
  if ¬ devKnown then (walks, none)
  else
    match walks.find? (·.isActive) with
    | none =>
      let w : Walk :=
        { isActive := true, startTime := timestamp, endTime := none,
          coordinates := [⟨latitude, longitude, timestamp⟩],
          distance := 0, duration := 0 }
      (walks ++ [w], some w)
    | some w =>
      let coords := w.coordinates ++ [⟨latitude, longitude, timestamp⟩]
      let totalDistance : ℚ :=
        if 1 < coords.length then pathDistance dist coords else 0
      let w2 : Walk :=
        { w with coordinates := coords,
                 distance := jround totalDistance,
                 duration := jfloorDiv (timestamp - w.startTime) 1000,
                 isActive := true }
      (replaceFirstActive walks w2, some w2)

/-- `closeActiveWalkPaths` (src/database.js lines 200-219): set every active
walk of the device to `isActive = false` with `endTime = new Date()` — the
wall-clock time `now`, not a record timestamp. -/
def closeActiveWalkPaths (devKnown : Bool) (now : Int) (walks : List Walk) :
    List Walk :=
  if ¬ devKnown then walks
  else walks.map fun w =>
    if w.isActive then { w with isActive := false, endTime := some now } else w

end DBv

namespace DBv

/-- `determineMovementStatus` (src/database.js lines 303-333): explicit
`movementStatus` first, then the legacy `movement` flag, then the
speed-above-3 km/h rule, else `null`. -/
def determineMovementStatus (r : Rec) : Option Bool :=
  match r.movementStatus with
  | some b => some b
  | none =>
    match r.movement with
    | some b => some b
    | none =>
      match r.positionSpeed with
      | some s => some (decide (3 < s))
      | none => none

/-- The `DeviceData` document built by `saveDeviceData` in the walk module of
src/database.js (lines 399-412); fields that do not bear on any claim
(`device`, `deviceName`) are the external document reference and are
omitted. -/
structure DeviceDataDoc where
  batteryLevel : Nat
  gnssStatus : Option Bool
  movementStatus : Option Bool
  positionAltitude : Option Int
  positionDirection : Option Nat
  positionSpeed : Option ℚ
  positionValid : Bool
  timestamp : Int
  positionLatitude : ℚ
  positionLongitude : ℚ
  deriving Repr, DecidableEq

/-- `saveDeviceData` (src/database.js lines 336-429): persist **only the last
record** of the batch, after timestamp and coordinate validation.  A numeric
timestamp below 10^10 is treated as seconds and scaled by 1000.  Returns the
single created document, or `none` when nothing is persisted. -/
def saveDeviceData (devKnown : Bool) (records : List Rec) :
    Option DeviceDataDoc :=
  if records.length = 0 then none
  else
    match records.getLast? with
    | none => none
    | some latestRecord =>
      if ¬ devKnown then none
      else
        match latestRecord.timestamp with
        | none => none
        | some t0 =>
          if t0 = 0 then none
          else
            let timestamp : Int := if t0 < 10000000000 then t0 * 1000 else t0
            let latitude : Option ℚ :=
              match latestRecord.positionLatitude with
              | some x => some x
              | none => latestRecord.latitude
            let longitude : Option ℚ :=
              match latestRecord.positionLongitude with
              | some x => some x
              | none => latestRecord.longitude
            match latitude, longitude with
            | some la, some lo =>
              if la = 0 ∧ lo = 0 then none
              else
                some
                  { batteryLevel := latestRecord.batteryLevel.getD 0,
                    gnssStatus := latestRecord.gnssStatus,
                    movementStatus := determineMovementStatus latestRecord,
                    positionAltitude :=
                      jsOrZ latestRecord.positionAltitude latestRecord.altitude,
                    positionDirection :=
                      jsOrN latestRecord.positionDirection latestRecord.angle,
                    positionSpeed := jsOrQ latestRecord.positionSpeed latestRecord.speed,
                    positionValid :=
                      (latestRecord.positionValid.getD false) ||
                        (decide (la ≠ 0) && decide (lo ≠ 0)),
                    timestamp := timestamp,
                    positionLatitude := la,
                    positionLongitude := lo }
            | _, _ => none

/-- The per-device tracker object of the walk module's `processWalkTracking`
(src/database.js lines 515-523).  `lastMovement` is only created by the final
assignment of a call, hence an `Option`. -/
structure Tracker where
  isSaving : Bool := false
  lastPoint : Option Point := none
  lastUpdate : Int
  movementStartTime : Option Int := none
  falseDuration : Int := 0
  lastMovement : Option Int := none
  deriving Repr, DecidableEq

/-- Tracker-plus-store state for one device. -/
structure WalkSt where
  tracker : Option Tracker := none
  walks : List Walk := []
  deriving Repr, DecidableEq

/-- `processWalkTracking` of the walk module (src/database.js lines 501-594):
speed above 3 km/h counts as moving; a walk is opened through `updateWalkPath`
after 30 s of continuous movement and closed through `closeActiveWalkPaths`
after 60 s of accumulated non-movement.  `now` is the wall clock
(`Date.now()` / `new Date()`); `record.timestamp` is taken as present, which
holds for every record the AVL parser emits. -/
def processWalkTracking (dist : ℚ → ℚ → ℚ → ℚ → ℚ) (devKnown : Bool)
    (now : Int) (record : Rec) (s : WalkSt) : WalkSt :=
  let ts : Int := record.timestamp.getD 0
  let lat := jsOrQ record.positionLatitude record.latitude
  let lon := jsOrQ record.positionLongitude record.longitude
  if lat = none ∨ lon = none then s
  else
    let la : ℚ := lat.getD 0
    let lo : ℚ := lon.getD 0
    if la = 0 ∧ lo = 0 then s
    else
      let tracker := s.tracker.getD
        { isSaving := false, lastPoint := none, lastUpdate := now,
          movementStartTime := none, falseDuration := 0, lastMovement := none }
      let tracker :=
        { tracker with lastPoint := some ⟨la, lo, ts⟩, lastUpdate := now }
      let speed : ℚ := record.positionSpeed.getD 0
      if 3 < speed then
        let tracker := { tracker with falseDuration := 0 }
        let tracker :=
          if tracker.movementStartTime = none then
            { tracker with movementStartTime := some ts }
          else tracker
        if ¬ tracker.isSaving then
          if 30000 ≤ ts - tracker.movementStartTime.getD ts then
            let tracker := { tracker with isSaving := true }
            let res := updateWalkPath dist devKnown s.walks la lo ts
            { tracker := some { tracker with lastMovement := some ts },
              walks := res.1 }
          else
            { tracker := some { tracker with lastMovement := some ts },
              walks := s.walks }
        else
          let res := updateWalkPath dist devKnown s.walks la lo ts
          { tracker := some { tracker with lastMovement := some ts },
            walks := res.1 }
      else
        let tracker :=
          match tracker.lastMovement with
          | some lm =>
            { tracker with falseDuration := tracker.falseDuration + (ts - lm) }
          | none => tracker
        if (60000 : Int) ≤ tracker.falseDuration ∧ tracker.isSaving then
          let tracker :=
            { tracker with isSaving := false, movementStartTime := none,
                           falseDuration := 0 }
          { tracker := some { tracker with lastMovement := some ts },
            walks := closeActiveWalkPaths devKnown now s.walks }
        else
          { tracker := some { tracker with lastMovement := some ts },
            walks := s.walks }

end DBv

namespace DS

/-- The per-device entry of the global `movementTracker` map in
src/deviceServer.js (lines 71-77). -/
structure Tracker where
  lastMovement : Int
  movementStartTime : Option Int := none
  falseDuration : Int := 0
  isSaving : Bool := false
  deriving Repr, DecidableEq

/-- Tracker, pending-point buffer and walk store for one device. -/
structure WalkSt where
  tracker : Option Tracker := none
  pending : List Point := []
  walks : List Walk := []
  deriving Repr, DecidableEq

/-- The local `updateWalkPath` of src/deviceServer.js (lines 445-579) in the
single-point shape `updateWalkPath(deviceImei, lat, lon, timestamp)` used by
`processWalkTracking`: `points` carries the latitude, `isActive` the longitude
and `endTime` the timestamp, so in the update path the `isActive` flag is left
unchanged (the argument is a number, not a boolean) and `endTime` is set to
the point's timestamp.  Distance is accumulated on top of the stored distance
over the appended point only. -/
def updateWalkPath (dist : ℚ → ℚ → ℚ → ℚ → ℚ) (devKnown : Bool)
    (walks : List Walk) (lat lon : ℚ) (timestamp : Int) :
    List Walk × Option Walk :=
  if ¬ devKnown then (walks, none)
  else
    let validPoints := [(⟨lat, lon, timestamp⟩ : Point)].filter fun p =>
      p.latitude ≠ 0 ∧ p.longitude ≠ 0
    if validPoints.length = 0 then (walks, none)
    else
      match walks.find? (·.isActive) with
      | none =>
        let w : Walk :=
          { isActive := true,
            startTime := (validPoints.headD ⟨0, 0, 0⟩).timestamp,
            endTime := none, coordinates := validPoints,
            distance := 0, duration := 0 }
        (walks ++ [w], some w)
      | some w =>
        let coords := w.coordinates ++ validPoints
        let addedDistance : ℚ :=
          if 1 < coords.length ∧ 0 < coords.length - validPoints.length then
            pathDistance dist (coords.drop (coords.length - validPoints.length - 1))
          else 0
        let w2 : Walk :=
          { w with coordinates := coords,
                   endTime := some timestamp,
                   distance := jround ((w.distance : ℚ) + addedDistance),
                   duration :=
                     jfloorDiv ((validPoints.getLastD ⟨0, 0, 0⟩).timestamp
                       - w.startTime) 1000 }
        (replaceFirstActive walks w2, some w2)

/-- `processWalkTracking` of src/deviceServer.js (lines 290-407): speed above
0.5 km/h counts as moving, a walk is opened through `saveWalkPath` with the
buffered points after 60 s of continuous movement, and after 120 s of
accumulated non-movement the tracker merely resets its own state — the active
walk in the store is **not** closed.  `now` is the wall clock used when the
tracker entry is first created; `record.timestamp` is taken as present, which
holds for every record the AVL parser emits. -/
def processWalkTracking (dist : ℚ → ℚ → ℚ → ℚ → ℚ) (devKnown : Bool)
    (now : Int) (record : Rec) (s : WalkSt) : WalkSt :=
  let tracker := s.tracker.getD
    { lastMovement := now, movementStartTime := none, falseDuration := 0,
      isSaving := false }
  let ts : Int := record.timestamp.getD 0
  let lat := jsOrQ record.positionLatitude record.latitude
  let lon := jsOrQ record.positionLongitude record.longitude
  if ¬ qTruthy lat ∨ ¬ qTruthy lon then { s with tracker := some tracker }
  else
    let la : ℚ := lat.getD 0
    let lo : ℚ := lon.getD 0
    let speed : ℚ := record.positionSpeed.getD 0
    if 1 / 2 < speed then
      let tracker := { tracker with falseDuration := 0 }
      let tracker :=
        if tracker.movementStartTime = none then
          { tracker with movementStartTime := some ts }
        else tracker
      let pending := s.pending ++ [(⟨la, lo, ts⟩ : Point)]
      let movementDuration : Int := ts - tracker.movementStartTime.getD ts
      if ¬ tracker.isSaving ∧ (60000 : Int) ≤ movementDuration then
        let tracker := { tracker with isSaving := true }
        if pending.length ≠ 0 then
          let res := DBv.saveWalkPath dist devKnown s.walks pending true
            (some (pending.headD ⟨0, 0, 0⟩).timestamp) none
          match res.2 with
          | some _ =>
            { tracker := some { tracker with lastMovement := ts },
              pending := [], walks := res.1 }
          | none =>
            { tracker := some { tracker with lastMovement := ts },
              pending := pending, walks := res.1 }
        else
          { tracker := some { tracker with lastMovement := ts },
            pending := pending, walks := s.walks }
      else if tracker.isSaving then
        let res := updateWalkPath dist devKnown s.walks la lo ts
        { tracker := some { tracker with lastMovement := ts },
          pending := pending, walks := res.1 }
      else
        { tracker := some { tracker with lastMovement := ts },
          pending := pending, walks := s.walks }
    else
      let tracker :=
        { tracker with falseDuration :=
            tracker.falseDuration + (ts - tracker.lastMovement) }
      if (120000 : Int) ≤ tracker.falseDuration ∧ tracker.isSaving then
        let tracker :=
          { tracker with isSaving := false, movementStartTime := none,
                         falseDuration := 0 }
        { tracker := some { tracker with lastMovement := ts },
          pending := [], walks := s.walks }
      else
        { tracker := some { tracker with lastMovement := ts },
          pending := s.pending, walks := s.walks }

end DS

namespace DB1

/-- The `DeviceData` document of the first database module in src/database.js
(lines 94-116); the user/animal references are external identifiers and are
omitted. -/
structure DeviceDataDoc where
  timestamp : Option Int
  latitude : Option ℚ
  longitude : Option ℚ
  altitude : Option Int
  angle : Option Nat
  satellites : Option Nat
  speed : Option ℚ
  priority : Option Nat
  batteryLevel : Option Nat
  gnssStatus : Option Bool
  movement : Option Bool
  charging : Option Bool
  gsmSignal : Option Nat
  batteryVoltage : Option Nat
  deriving Repr, DecidableEq

/-- `saveDeviceData` of the first database module in src/database.js
(lines 70-124): persist only the last record of the batch, and store
`timestamp = new Date(deviceDate.getTime() + 3 * 60 * 60 * 1000)` — the wire
timestamp shifted by three hours (10,800,000 ms) toward UTC+3. -/
def saveDeviceData (devKnown : Bool) (records : List Rec) :
    Option DeviceDataDoc :=
  if ¬ devKnown then none
  else
    match records.getLast? with
    | none => none
    | some latestRecord =>
      if ¬ qTruthy latestRecord.latitude ∨ ¬ qTruthy latestRecord.longitude then
        none
      else
        some
          { timestamp := latestRecord.timestamp.map fun t => t + 10800000,
            latitude := latestRecord.latitude,
            longitude := latestRecord.longitude,
            altitude := latestRecord.altitude,
            angle := latestRecord.angle,
            satellites := latestRecord.satellites,
            speed := latestRecord.speed,
            priority := latestRecord.priority,
            batteryLevel := latestRecord.batteryLevel,
            gnssStatus := latestRecord.gnssStatus,
            movement := latestRecord.movement,
            charging := latestRecord.charging,
            gsmSignal := latestRecord.gsmSignal,
            batteryVoltage := latestRecord.batteryVoltage }

end DB1

/-! Concrete wire data used by witnesses and counterexamples. -/

/-- A complete Codec-8 AVL frame with one record: timestamp 1560000000000 ms,
longitude 25.0, latitude 54.0, altitude 100, angle 90, 7 satellites, speed
5 km/h, empty IO groups. -/
def frame1 : List Nat :=
  [0, 0, 0, 0, 0, 0, 0, 33, 8, 1, 0, 0, 1, 107, 55, 62, 240, 0, 0, 14, 230,
   178, 128, 32, 47, 191, 0, 0, 100, 0, 90, 7, 0, 5, 0, 0, 0, 0, 0, 0, 1, 0,
   0, 0, 0]

/-- A complete Codec-8 AVL frame with two records (timestamps 1560000000000
and 1560000060000 ms, speeds 5 and 0 km/h, same position). -/
def frame2 : List Nat :=
  [0, 0, 0, 0, 0, 0, 0, 63, 8, 2, 0, 0, 1, 107, 55, 62, 240, 0, 0, 14, 230,
   178, 128, 32, 47, 191, 0, 0, 100, 0, 90, 7, 0, 5, 0, 0, 0, 0, 0, 0, 0, 0,
   1, 107, 55, 63, 218, 96, 0, 14, 230, 178, 128, 32, 47, 191, 0, 0, 100, 0,
   90, 7, 0, 0, 0, 0, 0, 0, 0, 0, 2, 0, 0, 0, 0]

/-- `frame1` with codec id 0x09: the codec check of `parseTeltonikaData`
rejects it, so the frame decodes to no records. -/
def frameBadCodec : List Nat :=
  [0, 0, 0, 0, 0, 0, 0, 33, 9, 1, 0, 0, 1, 107, 55, 62, 240, 0, 0, 14, 230,
   178, 128, 32, 47, 191, 0, 0, 100, 0, 90, 7, 0, 5, 0, 0, 0, 0, 0, 0, 1, 0,
   0, 0, 0]

/-- The IMEI login frame of IMEI 353691841005134 (length 15). -/
def imeiFrame : List Nat :=
  [0, 15, 51, 53, 51, 54, 57, 49, 56, 52, 49, 48, 48, 53, 49, 51, 52]

/-- `JSON.parse` instantiation for concrete runs: every buffer fed to it in
the runs below contains a byte below 0x20 (the zero preamble bytes, the 0x0F
length byte), on which the real `JSON.parse` always throws, so `none` is its
value on all of them. -/
def jpNone : List Nat → Option JsonObj := fun _ => none

/-- Repository lookup that knows every device. -/
def knownAll : String → Bool := fun _ => true

/-- A record as the JSON ingestion path shapes it: timestamp, position and
speed under the `position*` names. -/
def mkRec (ts : Int) (sp : ℚ) : Rec :=
  { timestamp := some ts, positionLatitude := some 54,
    positionLongitude := some 25, positionSpeed := some sp }

/-- Distance-function instantiation for concrete runs (the claims under test
do not constrain distances). -/
def dist0 : ℚ → ℚ → ℚ → ℚ → ℚ := fun _ _ _ _ => 0

/-- C2 trace: move 60 s (walk opened), idle 120 s (tracker resets, walk left
active), move 60 s again (second walk opened). -/
def dsDoubleWalkTrace : DS.WalkSt :=
  ([mkRec 1000 5, mkRec 61000 5, mkRec 61500 0, mkRec 182000 0,
    mkRec 183000 5, mkRec 243000 5]).foldl
    (fun s r => DS.processWalkTracking dist0 true 0 r s) {}

/-- C4 trace: move 30 s (walk opened), then two idle records accumulating
61 s of non-movement; the wall clock sits at 999999 throughout. -/
def dbvIdleCloseTrace : DBv.WalkSt :=
  ([mkRec 1000 5, mkRec 31000 5, mkRec 32000 0, mkRec 92000 0]).foldl
    (fun s r => DBv.processWalkTracking dist0 true 999999 r s) {}

/-! Claim C3. -/

/-- C3 counterexample: at raw value 0x80000001 the decoder yields
-214.7483647 (two's complement), not the -0.0000001 that the sign-magnitude
reading of the spec demands. -/
theorem claim3_sign_magnitude_counterexample :
    decodeCoordinate 2147483649 ≠ specSignMagnitudeCoordinate 2147483649 := by
  simp only [decodeCoordinate, specSignMagnitudeCoordinate, toInt32]
  norm_num

/-- C3 (amended): the decoder interprets the 32-bit field as a plain
two's-complement integer scaled by 10^7; this agrees with the claimed
sign-magnitude decoding exactly on values with a clear top bit. -/
theorem claim3_coordinate_decoding (raw : Nat) (h : raw < 4294967296) :
    decodeCoordinate raw = ((toInt32 raw : Int) : ℚ) / 10000000 ∧
    (raw < 2147483648 → decodeCoordinate raw = specSignMagnitudeCoordinate raw) := by
  by_cases hr : raw < 2147483648
  · have h1 : ¬ 2147483648 ≤ raw % 4294967296 := by
      rw [Nat.mod_eq_of_lt h]; omega
    have h2 : raw % 2147483648 = raw := Nat.mod_eq_of_lt hr
    have habs : |(raw : Int)| = (raw : Int) :=
      abs_of_nonneg (by positivity)
    constructor
    · simp only [decodeCoordinate, toInt32, if_pos hr, if_neg h1, habs, one_mul]
    · intro _
      simp only [decodeCoordinate, specSignMagnitudeCoordinate, toInt32,
        if_pos hr, if_neg h1, h2, habs, one_mul]
  · have h1 : 2147483648 ≤ raw % 4294967296 := by
      rw [Nat.mod_eq_of_lt h]; omega
    have hneg : (raw : Int) - 4294967296 < 0 := by
      have hc : (raw : Int) < 4294967296 := by exact_mod_cast h
      omega
    constructor
    · simp only [decodeCoordinate, toInt32, if_neg hr, if_pos h1,
        abs_of_neg hneg]
      push_cast
      ring_nf
    · intro hc
      omega

/-- Witness for C3 at raw values 3100000000 (top bit set) and 250000000. -/
theorem claim3_coordinate_decoding_witness :
    decodeCoordinate 3100000000 = ((toInt32 3100000000 : Int) : ℚ) / 10000000 ∧
    decodeCoordinate 250000000 = specSignMagnitudeCoordinate 250000000 :=
  ⟨(claim3_coordinate_decoding 3100000000 (by norm_num)).1,
   (claim3_coordinate_decoding 250000000 (by norm_num)).2 (by norm_num)⟩

/-! Claim C10. -/

/-- C10: the persistence path of src/database.js lines 89-98 stores
`wireTimestamp + 3 h`: whenever `saveDeviceData` of the first database module
persists a record, the stored timestamp is the record's timestamp plus
10,800,000 ms. -/
theorem claim10_timestamp_shift (devKnown : Bool) (records : List Rec)
    (r : Rec) (t : Int)
    (hlast : records.getLast? = some r)
    (ht : r.timestamp = some t)
    (hk : devKnown = true)
    (hla : qTruthy r.latitude = true)
    (hlo : qTruthy r.longitude = true) :
    ∃ doc, DB1.saveDeviceData devKnown records = some doc ∧
      doc.timestamp = some (t + 10800000) := by
  subst hk
  refine ⟨{ timestamp := r.timestamp.map fun u => u + 10800000,
            latitude := r.latitude, longitude := r.longitude,
            altitude := r.altitude, angle := r.angle,
            satellites := r.satellites, speed := r.speed,
            priority := r.priority, batteryLevel := r.batteryLevel,
            gnssStatus := r.gnssStatus, movement := r.movement,
            charging := r.charging, gsmSignal := r.gsmSignal,
            batteryVoltage := r.batteryVoltage }, ?_, by rw [ht]; rfl⟩
  unfold DB1.saveDeviceData
  rw [hlast]
  simp [hla, hlo]

/-- Witness for C10: a one-record batch with wire timestamp 5 is stored with
timestamp 10800005. -/
theorem claim10_timestamp_shift_witness :
    ∃ doc,
      DB1.saveDeviceData true
        [{ timestamp := some 5, latitude := some 54, longitude := some 25 }] =
        some doc ∧
      doc.timestamp = some (5 + 10800000) :=
  claim10_timestamp_shift true
    [{ timestamp := some 5, latitude := some 54, longitude := some 25 }]
    { timestamp := some 5, latitude := some 54, longitude := some 25 } 5
    rfl rfl rfl (by decide) (by decide)

/-! Claim C2. -/

/-- Replacing the first active walk by another active walk leaves the number
of active walks unchanged. -/
theorem countActive_replaceFirstActive (walks : List Walk) (w : Walk)
    (hw : w.isActive = true) :
    countActive (replaceFirstActive walks w) = countActive walks := by
  induction walks with
  | nil => rfl
  | cons x rest ih =>
    unfold replaceFirstActive
    by_cases hx : x.isActive = true
    · rw [if_pos hx]
      simp [countActive, List.filter_cons, hw, hx]
    · rw [if_neg hx]
      simp only [countActive, List.filter_cons, hx] at ih ⊢
      simp only [Bool.false_eq_true, if_false]
      exact ih

/-- A walk list with no active walk has `countActive` zero. -/
theorem countActive_eq_zero_of_find?_none (walks : List Walk)
    (h : walks.find? (·.isActive) = none) : countActive walks = 0 := by
  unfold countActive
  have hall := List.find?_eq_none.mp h
  have : walks.filter (·.isActive) = [] := by
    rw [List.filter_eq_nil_iff]
    intro a ha
    simpa using hall a ha
  rw [this]
  rfl

/-- C2 counterexample: starting from no walks, the deviceServer tracker run on
the six-record trace leaves **two** walks with `isActive = true` for the same
device — the idle reset never closes the stored walk and the next warmup
crossing opens a second one through `saveWalkPath`, which inserts
unconditionally. -/
theorem claim2_two_active_walks_counterexample :
    countActive dsDoubleWalkTrace.walks = 2 := by decide

/-- C2 (amended): the at-most-one-active-walk bound is preserved by the
`updateWalkPath` extension path (it reuses the first active walk and only
creates one when none exists), but it is not an invariant of the system:
`saveWalkPath`, used at the warmup crossing, inserts a new active walk without
checking, as the counterexample shows. -/
theorem claim2_single_active_walk (dist : ℚ → ℚ → ℚ → ℚ → ℚ)
    (devKnown : Bool) (walks : List Walk) (la lo : ℚ) (ts : Int)
    (h : countActive walks ≤ 1) :
    countActive (DBv.updateWalkPath dist devKnown walks la lo ts).1 ≤ 1 := by
  unfold DBv.updateWalkPath
  by_cases hk : devKnown = true
  · rw [if_neg (by simp [hk])]
    cases hfind : walks.find? (·.isActive) with
    | none =>
      have hz := countActive_eq_zero_of_find?_none walks hfind
      simp only [countActive, List.filter_append] at hz ⊢
      simp [hz, List.filter]
    | some w =>
      simp only []
      rw [countActive_replaceFirstActive _ _ rfl]
      exact h
  · rw [if_pos (by simp [hk])]
    exact h

/-- Witness for C2's preserved part: extending the empty store keeps at most
one active walk. -/
theorem claim2_single_active_walk_witness :
    countActive (DBv.updateWalkPath dist0 true [] 54 25 1000).1 ≤ 1 :=
  claim2_single_active_walk dist0 true [] 54 25 1000 (by decide)

/-! Claim C4. -/

/-- C4 counterexample: in the four-record trace the walk is closed by a
non-moving record whose accumulated idle time is 61,000 ms — far below the
claimed 5-minute `IDLE_MS` — and its `endTime` is the wall-clock value 999999,
not the closing record's timestamp 92000. -/
theorem claim4_close_counterexample :
    dbvIdleCloseTrace.walks.map (fun w => (w.isActive, w.endTime)) =
      [(false, some 999999)] ∧
    (dbvIdleCloseTrace.tracker.map fun t =>
      (t.isSaving, t.falseDuration, t.movementStartTime)) =
      some (false, 0, none) := by decide

/-- C4 (amended): in the walk module's tracker, a non-moving valid-coordinate
record that brings the accumulated idle time to **60,000 ms** (one minute, not
five) while saving closes every active walk through `closeActiveWalkPaths`,
which stamps `endTime` with the **wall-clock time**, not the record's
timestamp, and the tracker state resets. -/
theorem claim4_idle_closure (dist : ℚ → ℚ → ℚ → ℚ → ℚ) (devKnown : Bool)
    (now : Int) (record : Rec) (s : DBv.WalkSt) (tr : DBv.Tracker)
    (t lm : Int) (la lo : ℚ)
    (htr : s.tracker = some tr)
    (hsav : tr.isSaving = true)
    (hts : record.timestamp = some t)
    (hla : jsOrQ record.positionLatitude record.latitude = some la)
    (hlo : jsOrQ record.positionLongitude record.longitude = some lo)
    (hnz : ¬ (la = 0 ∧ lo = 0))
    (hspeed : record.positionSpeed.getD 0 ≤ 3)
    (hlm : tr.lastMovement = some lm)
    (hidle : 60000 ≤ tr.falseDuration + (t - lm)) :
    ∃ tr2, (DBv.processWalkTracking dist devKnown now record s).tracker =
        some tr2 ∧
      tr2.isSaving = false ∧ tr2.movementStartTime = none ∧
      tr2.falseDuration = 0 ∧ tr2.lastMovement = some t ∧
      (DBv.processWalkTracking dist devKnown now record s).walks =
        DBv.closeActiveWalkPaths devKnown now s.walks := by
  unfold DBv.processWalkTracking
  rw [hts, hla, hlo, htr]
  simp only [Option.getD_some]
  rw [if_neg (by simp)]
  rw [if_neg hnz]
  rw [if_neg (by exact not_lt.mpr hspeed)]
  rw [hlm]
  dsimp only
  rw [if_pos ⟨by omega, hsav⟩]
  exact ⟨_, rfl, rfl, rfl, rfl, rfl, rfl⟩

/-- Witness for C4: the fourth record of the counterexample trace, replayed
from the state after three records. -/
theorem claim4_idle_closure_witness :
    ∃ tr2,
      (DBv.processWalkTracking dist0 true 999999 (mkRec 92000 0)
        (([mkRec 1000 5, mkRec 31000 5, mkRec 32000 0]).foldl
          (fun s r => DBv.processWalkTracking dist0 true 999999 r s)
          {})).tracker = some tr2 ∧
      tr2.isSaving = false ∧ tr2.movementStartTime = none ∧
      tr2.falseDuration = 0 ∧ tr2.lastMovement = some 92000 ∧
      (DBv.processWalkTracking dist0 true 999999 (mkRec 92000 0)
        (([mkRec 1000 5, mkRec 31000 5, mkRec 32000 0]).foldl
          (fun s r => DBv.processWalkTracking dist0 true 999999 r s)
          {})).walks =
        DBv.closeActiveWalkPaths true 999999
          (([mkRec 1000 5, mkRec 31000 5, mkRec 32000 0]).foldl
            (fun s r => DBv.processWalkTracking dist0 true 999999 r s)
            {}).walks :=
  claim4_idle_closure dist0 true 999999 (mkRec 92000 0) _
    { isSaving := true, lastPoint := some ⟨54, 25, 32000⟩,
      lastUpdate := 999999, movementStartTime := some 1000,
      falseDuration := 1000, lastMovement := some 32000 }
    92000 32000 54 25
    (by decide) rfl rfl rfl rfl (by decide) (by decide) rfl (by decide)

/-! One authenticated `processBuffer` step on a buffer holding exactly one
complete AVL frame, shared by several claims below. -/

/-- When the buffer holds exactly one complete AVL frame (zero preamble, the
length field matching the buffer, not an IMEI packet, not JSON), one
`processBuffer` invocation parses it, dispatches the filtered records in
order to the tracker, hands the batch to `saveDeviceData`, writes one 4-byte
big-endian acknowledgement equal to the full record count if any record was
decoded, and leaves the session open with an empty buffer. -/
theorem ds_run_complete_frame (jp : List Nat → Option JsonObj)
    (known : String → Bool) (serverStart : Int) (st : DS.St)
    (hjp : jp st.buf = none)
    (him : isImeiPacket st.buf = false)
    (h8 : 8 ≤ st.buf.length)
    (hpre : readU32BE st.buf 0 = 0)
    (hlen : st.buf.length = 8 + readU32BE st.buf 4 + 4) :
    DS.run jp known serverStart st =
      (let records := parseTeltonikaData st.buf st.deviceImei
       let newRecords := records.filter fun r =>
         match r.timestamp with
         | some t => decide (serverStart < t)
         | none => false
       let dispatched := newRecords.map fun r =>
         { r with movementStatus := some (jsGtQ r.positionSpeed 3) }
       { st with buf := [],
                 walkEvents := st.walkEvents ++ dispatched,
                 saveEvents :=
                   if 0 < dispatched.length then
                     st.saveEvents ++ [(st.deviceImei, dispatched)]
                   else st.saveEvents,
                 writes :=
                   if 0 < records.length then st.writes ++ [be32 records.length]
                   else st.writes }) := by
  have h2 : ¬ (st.buf.length < 2) := by omega
  have hl : (8 + readU32BE st.buf 4 + 4) ≤ st.buf.length := le_of_eq hlen.symm
  have htake : st.buf.take (8 + readU32BE st.buf 4 + 4) = st.buf := by
    rw [← hlen]; exact List.take_length st.buf
  have hdrop : st.buf.drop (8 + readU32BE st.buf 4 + 4) = [] := by
    rw [← hlen]; exact List.drop_length st.buf
  simp only [DS.run, DS.processBuffer, him, Bool.false_eq_true, if_false,
    hjp, if_neg h2, if_pos h8, hpre, ne_eq, not_true_eq_false,
    if_pos hl, htake, hdrop]
  by_cases hr : 0 < (parseTeltonikaData st.buf st.deviceImei).length
  · by_cases hn : 0 < (List.filter (fun r =>
        match r.timestamp with
        | some t => decide (serverStart < t)
        | none => false) (parseTeltonikaData st.buf st.deviceImei)).length
    · simp only [if_pos hr, if_pos hn, List.length_map, hdrop,
        List.length_nil, lt_self_iff_false, if_false]
    · have hfil : (List.filter (fun r =>
          match r.timestamp with
          | some t => decide (serverStart < t)
          | none => false) (parseTeltonikaData st.buf st.deviceImei)) = [] :=
        List.eq_nil_of_length_eq_zero (by omega)
      simp only [if_pos hr, if_neg hn, hfil, List.map_nil, List.length_nil,
        lt_self_iff_false, if_false, List.append_nil, hdrop]
  · have hrec : parseTeltonikaData st.buf st.deviceImei = [] :=
      List.eq_nil_of_length_eq_zero (by omega)
    simp only [if_neg hr, hrec, List.filter_nil, List.map_nil, List.length_nil,
      lt_self_iff_false, if_false, List.append_nil, hdrop]

/-! Claim C1. -/

/-- C1 counterexample: a rate-limited, successfully decodable AVL frame
produces **no** acknowledgement at all in the rate-limiting server variant —
the frame's bytes are discarded and nothing is written — rather than the
claimed 4-byte zero acknowledgement. -/
theorem claim1_rate_limited_counterexample :
    (US.isRateLimited 1000000 (List.replicate 60 999999)).1 = true ∧
    (parseTeltonikaData frame1 (some "353691841005134")).length = 1 ∧
    (US.run knownAll 1000000
      { buf := frame1, deviceId := some "353691841005134", imeiDone := true,
        reqs := List.replicate 60 999999 }).writes = [] ∧
    (US.run knownAll 1000000
      { buf := frame1, deviceId := some "353691841005134", imeiDone := true,
        reqs := List.replicate 60 999999 }).buf = [] := by
  refine ⟨by decide, by decide, by decide, by decide⟩

/-- C1 (amended): in the deviceServer.js server (which has no rate limiting)
a buffer holding one complete, successfully decoded AVL frame yields exactly
one 4-byte big-endian acknowledgement equal to the frame's record count; in
the rate-limiting utils.js variant, a rate-limited frame is consumed without
any write and without being dispatched. -/
theorem claim1_ack_behavior :
    (∀ (jp : List Nat → Option JsonObj) (known : String → Bool)
        (serverStart : Int) (st : DS.St),
      jp st.buf = none →
      isImeiPacket st.buf = false →
      8 ≤ st.buf.length →
      readU32BE st.buf 0 = 0 →
      st.buf.length = 8 + readU32BE st.buf 4 + 4 →
      0 < (parseTeltonikaData st.buf st.deviceImei).length →
      (DS.run jp known serverStart st).writes =
        st.writes ++ [be32 (parseTeltonikaData st.buf st.deviceImei).length]) ∧
    (∀ (known : String → Bool) (now : Int) (st : US.St) (d : String),
      st.deviceId = some d →
      st.imeiDone = true →
      8 ≤ st.buf.length →
      readU32BE st.buf 0 = 0 →
      (US.isRateLimited now st.reqs).1 = true →
      (US.run known now st).writes = st.writes ∧
      (US.run known now st).saveEvents = st.saveEvents ∧
      (US.run known now st).buf =
        st.buf.drop (8 + readU32BE st.buf 4 + 4)) := by
  constructor
  · intro jp known serverStart st hjp him h8 hpre hlen hparse
    rw [ds_run_complete_frame jp known serverStart st hjp him h8 hpre hlen]
    simp only [if_pos hparse]
  · intro known now st d hd hi h8 hpre hrl
    unfold US.run US.processBuffer
    rw [if_neg (by omega : ¬ st.buf.length < 2)]
    rw [if_neg (by simp [hi])]
    rw [if_pos h8]
    rw [if_pos hpre]
    rw [hd]
    simp only [hrl, if_true]
    exact ⟨trivial, trivial, trivial⟩

/-- Witness for C1: the deviceServer half at a one-record frame (the
acknowledgement is `00 00 00 01`), the utils.js half at a rate-limited
session. -/
theorem claim1_ack_behavior_witness :
    (DS.run jpNone knownAll 0
      { buf := frame1, deviceImei := some "353691841005134" }).writes =
      [] ++ [be32 (parseTeltonikaData frame1 (some "353691841005134")).length] ∧
    (US.run knownAll 1000000
      { buf := frame2, deviceId := some "353691841005134", imeiDone := true,
        reqs := List.replicate 60 999999 }).writes = [] :=
  ⟨claim1_ack_behavior.1 jpNone knownAll 0
      { buf := frame1, deviceImei := some "353691841005134" }
      rfl (by decide) (by decide) (by decide) (by decide) (by decide),
   (claim1_ack_behavior.2 knownAll 1000000
      { buf := frame2, deviceId := some "353691841005134", imeiDone := true,
        reqs := List.replicate 60 999999 }
      "353691841005134" rfl rfl (by decide) (by decide) (by decide)).1⟩

/-! Claim C5. -/

/-- C5 counterexample: `frame2` decodes to two records and both are dispatched
to the movement tracker, but the persistence layer stores only the final
record of the batch — the first record (wire timestamp 1560000000000) is
silently omitted: `saveDeviceData` returns a single document, carrying the
second record's timestamp. -/
theorem claim5_omitted_record_counterexample :
    (parseTeltonikaData frame2 (some "353691841005134")).length = 2 ∧
    ((DS.run jpNone knownAll 0
      { buf := frame2, deviceImei := some "353691841005134" }).saveEvents.map
        fun e => e.2.length) = [2] ∧
    ((DBv.saveDeviceData true
      ((DS.run jpNone knownAll 0
        { buf := frame2, deviceImei := some "353691841005134" }).saveEvents.headD
          (none, [])).2).map fun d => d.timestamp) = some 1560000060000 := by
  refine ⟨by decide, by decide, by decide⟩

/-- C5 (amended): for a complete decoded frame every record that survives the
server-start filter is handed to the movement tracker in record order and the
batch is handed to `saveDeviceData`; but `saveDeviceData` persists at most the
**last** record of the batch — its result depends only on `records.getLast?` —
so earlier records of a multi-record frame never reach the store. -/
theorem claim5_dispatch_persistence :
    (∀ (jp : List Nat → Option JsonObj) (known : String → Bool)
        (serverStart : Int) (st : DS.St),
      jp st.buf = none →
      isImeiPacket st.buf = false →
      8 ≤ st.buf.length →
      readU32BE st.buf 0 = 0 →
      st.buf.length = 8 + readU32BE st.buf 4 + 4 →
      (DS.run jp known serverStart st).walkEvents =
        st.walkEvents ++
          (((parseTeltonikaData st.buf st.deviceImei).filter fun r =>
            match r.timestamp with
            | some t => decide (serverStart < t)
            | none => false).map fun r =>
              { r with movementStatus := some (jsGtQ r.positionSpeed 3) })) ∧
    (∀ (devKnown : Bool) (records : List Rec) (r : Rec),
      records.getLast? = some r →
      DBv.saveDeviceData devKnown records = DBv.saveDeviceData devKnown [r]) := by
  constructor
  · intro jp known serverStart st hjp him h8 hpre hlen
    rw [ds_run_complete_frame jp known serverStart st hjp him h8 hpre hlen]
  · intro devKnown records r hlast
    have hne : records ≠ [] := by
      intro h
      rw [h] at hlast
      exact Option.noConfusion hlast
    have hnz : ¬ records.length = 0 := by
      simpa [List.length_eq_zero] using hne
    unfold DBv.saveDeviceData
    rw [hlast]
    rw [if_neg hnz]
    rw [if_neg (by simp : ¬ ([r] : List Rec).length = 0)]
    rfl

/-- Witness for C5 at the two-record frame and a concrete two-record batch. -/
theorem claim5_dispatch_persistence_witness :
    (DS.run jpNone knownAll 0
      { buf := frame2, deviceImei := some "353691841005134" }).walkEvents =
      [] ++
        (((parseTeltonikaData frame2 (some "353691841005134")).filter fun r =>
          match r.timestamp with
          | some t => decide ((0 : Int) < t)
          | none => false).map fun r =>
            { r with movementStatus := some (jsGtQ r.positionSpeed 3) }) ∧
    DBv.saveDeviceData true [mkRec 1560000000000 5, mkRec 1560000060000 0] =
      DBv.saveDeviceData true [mkRec 1560000060000 0] :=
  ⟨claim5_dispatch_persistence.1 jpNone knownAll 0
      { buf := frame2, deviceImei := some "353691841005134" }
      rfl (by decide) (by decide) (by decide) (by decide),
   claim5_dispatch_persistence.2 true
      [mkRec 1560000000000 5, mkRec 1560000060000 0]
      (mkRec 1560000060000 0) (by decide)⟩

/-! Claim C6. -/

/-- C6 counterexample: a frame whose codec id is 0x09 is reported undecodable
(`parseTeltonikaData` returns no records), yet the session is **not** closed —
the frame is skipped, nothing is acknowledged, and processing continues on an
empty buffer with the socket still open. -/
theorem claim6_no_close_counterexample :
    parseTeltonikaData frameBadCodec (some "353691841005134") = [] ∧
    (DS.run jpNone knownAll 0
      { buf := frameBadCodec, deviceImei := some "353691841005134" }).ended =
      false ∧
    (DS.run jpNone knownAll 0
      { buf := frameBadCodec, deviceImei := some "353691841005134" }).writes =
      [] ∧
    (DS.run jpNone knownAll 0
      { buf := frameBadCodec, deviceImei := some "353691841005134" }).buf =
      [] := by
  refine ⟨by decide, by decide, by decide, by decide⟩

/-- C6 (amended): when a complete frame's body fails to decode (codec id not
in {0x08, 0x8E}, zero record count, oversized length — any case where
`parseTeltonikaData` returns `[]`), the server writes no acknowledgement
(true part of the claim), but it does **not** close the session: the frame's
bytes are consumed and the connection stays as it was. -/
theorem claim6_malformed_handling (jp : List Nat → Option JsonObj)
    (known : String → Bool) (serverStart : Int) (st : DS.St)
    (hjp : jp st.buf = none)
    (him : isImeiPacket st.buf = false)
    (h8 : 8 ≤ st.buf.length)
    (hpre : readU32BE st.buf 0 = 0)
    (hlen : st.buf.length = 8 + readU32BE st.buf 4 + 4)
    (hparse : parseTeltonikaData st.buf st.deviceImei = []) :
    (DS.run jp known serverStart st).writes = st.writes ∧
    (DS.run jp known serverStart st).ended = st.ended ∧
    (DS.run jp known serverStart st).buf = [] := by
  rw [ds_run_complete_frame jp known serverStart st hjp him h8 hpre hlen]
  simp [hparse]

/-- Witness for C6 at the bad-codec frame. -/
theorem claim6_malformed_handling_witness :
    (DS.run jpNone knownAll 0
      { buf := frameBadCodec, deviceImei := some "353691841005134" }).writes =
      [] ∧
    (DS.run jpNone knownAll 0
      { buf := frameBadCodec, deviceImei := some "353691841005134" }).ended =
      false ∧
    (DS.run jpNone knownAll 0
      { buf := frameBadCodec, deviceImei := some "353691841005134" }).buf =
      [] :=
  claim6_malformed_handling jpNone knownAll 0
    { buf := frameBadCodec, deviceImei := some "353691841005134" }
    rfl (by decide) (by decide) (by decide) (by decide) (by decide)

/-! Claim C7. -/

/-- A buffer recognised as an IMEI packet is at least 4 bytes long. -/
theorem isImeiPacket_length (b : List Nat) (h : isImeiPacket b = true) :
    4 ≤ b.length := by
  by_cases h4 : b.length < 4
  · unfold isImeiPacket at h
    rw [if_pos h4] at h
    exact Bool.noConfusion h
  · omega

/-- C7 counterexample: in the utils.js server variant an unknown IMEI is
**acknowledged with 0x01** and the connection is kept, with the device marked
as "unknown" — the variant writes a byte where the claim demands silence. -/
theorem claim7_ack_unknown_counterexample :
    (US.run (fun _ => false) 0 { buf := imeiFrame }).writes = [[1]] ∧
    (US.run (fun _ => false) 0 { buf := imeiFrame }).deviceId =
      some "unknown" ∧
    (US.run (fun _ => false) 0 { buf := imeiFrame }).imeiDone = true := by
  refine ⟨by decide, by decide, by decide⟩

/-- C7 (amended): the deviceServer.js server behaves as the claim says — on a
login frame whose IMEI the repository lookup does not know, it writes nothing
and calls `socket.end()`; the utils.js variant instead acknowledges the
unknown device and keeps the connection (counterexample). -/
theorem claim7_unknown_device (jp : List Nat → Option JsonObj)
    (known : String → Bool) (serverStart : Int) (st : DS.St)
    (him : isImeiPacket st.buf = true)
    (hk : known (parseImeiPacket st.buf) = false) :
    (DS.run jp known serverStart st).writes = st.writes ∧
    (DS.run jp known serverStart st).ended = true ∧
    (DS.run jp known serverStart st).deviceImei =
      some (parseImeiPacket st.buf) := by
  have h4 := isImeiPacket_length st.buf him
  unfold DS.run DS.processBuffer
  rw [if_neg (by omega : ¬ st.buf.length < 2)]
  rw [if_pos him]
  rw [if_pos (by simp [hk])]
  exact ⟨rfl, rfl, rfl⟩

/-- Witness for C7 at the sample login frame against an empty repository. -/
theorem claim7_unknown_device_witness :
    (DS.run jpNone (fun _ => false) 0 { buf := imeiFrame }).writes = [] ∧
    (DS.run jpNone (fun _ => false) 0 { buf := imeiFrame }).ended = true ∧
    (DS.run jpNone (fun _ => false) 0 { buf := imeiFrame }).deviceImei =
      some (parseImeiPacket imeiFrame) :=
  claim7_unknown_device jpNone (fun _ => false) 0 { buf := imeiFrame }
    (by decide) rfl

/-! Claim C8. -/

/-- A buffer whose 16-bit prefix exceeds 17 is never an IMEI packet. -/
theorem isImeiPacket_false_of_big (b : List Nat)
    (h : 17 < readU16BE b 0) : isImeiPacket b = false := by
  unfold isImeiPacket
  by_cases h4 : b.length < 4
  · rw [if_pos h4]
  · rw [if_neg h4]
    rw [if_neg (by omega)]

/-- A buffer starting with byte 0x31 has a nonzero 32-bit prefix. -/
theorem readU32BE_ne_zero_of_head49 (b : List Nat) (h : b.getD 0 0 = 49) :
    readU32BE b 0 ≠ 0 := by
  unfold readU32BE
  omega

/-- One resync step: a buffer headed by the garbage byte 0x31 is not an IMEI
packet and has a nonzero preamble, so `processBuffer` drops the byte and
continues on the tail. -/
theorem ds_resync_step (fuel : Nat) (st : DS.St) (b : List Nat)
    (h8 : 8 ≤ (49 :: b).length) :
    DS.processBuffer jpNone knownAll 0 (fuel + 1) { st with buf := 49 :: b } =
    (if 0 < b.length then
      DS.processBuffer jpNone knownAll 0 fuel { st with buf := b }
    else { st with buf := b }) := by
  have h16 : 17 < readU16BE (49 :: b) 0 := by
    unfold readU16BE
    have : (49 :: b).getD 0 0 = 49 := rfl
    omega
  have hpre : readU32BE (49 :: b) 0 ≠ 0 := by
    unfold readU32BE
    have : (49 :: b).getD 0 0 = 49 := rfl
    omega
  conv_lhs => unfold DS.processBuffer
  rw [if_neg (by simp only [List.length_cons] at h8 ⊢; omega)]
  rw [if_neg (by simp [isImeiPacket_false_of_big _ h16])]
  dsimp only [jpNone]
  rw [if_pos h8]
  rw [if_pos (by simpa using hpre)]
  rfl

/-- The resync branch of `processBuffer` discards leading garbage bytes one at
a time with no bound: `k` copies of the byte 0x31 in front of a complete
buffer are consumed and processing continues on that buffer, whatever `k`
is. -/
theorem ds_resync_consumes_garbage (k : Nat) (fuel : Nat) (st : DS.St)
    (rest : List Nat) (h8 : 8 ≤ rest.length) :
    DS.processBuffer jpNone knownAll 0 (k + (fuel + 1))
      { st with buf := List.replicate k 49 ++ rest } =
    DS.processBuffer jpNone knownAll 0 (fuel + 1) { st with buf := rest } := by
  induction k with
  | zero =>
    rw [show List.replicate 0 49 ++ rest = rest from List.nil_append rest,
      Nat.zero_add]
  | succ k ih =>
    have hb : List.replicate (k + 1) 49 ++ rest =
        49 :: (List.replicate k 49 ++ rest) := by
      rw [List.replicate_succ, List.cons_append]
    have hlen : 8 ≤ (List.replicate k 49 ++ rest).length := by
      rw [List.length_append]
      omega
    rw [hb]
    rw [show (k + 1) + (fuel + 1) = (k + (fuel + 1)) + 1 by omega]
    rw [ds_resync_step (k + (fuel + 1)) st (List.replicate k 49 ++ rest)
      (by simp only [List.length_cons]; omega)]
    rw [if_pos (by omega)]
    exact ih

/-- Evaluated form of a garbage-prefixed delivery: however many 0x31 bytes
precede the frame, the frame is accepted, acknowledged, and the session stays
open. -/
theorem ds_garbage_run_eval (k : Nat) :
    ((DS.run jpNone knownAll 0
      { buf := List.replicate k 49 ++ frame1,
        deviceImei := some "353691841005134" }).writes,
     (DS.run jpNone knownAll 0
      { buf := List.replicate k 49 ++ frame1,
        deviceImei := some "353691841005134" }).ended) = ([be32 1], false) := by
  have hlen : (List.replicate k 49 ++ frame1).length + 1 = k + (45 + 1) := by
    simp [frame1]
  simp only [DS.run]
  rw [hlen]
  rw [ds_resync_consumes_garbage k 45
    ⟨[], some "353691841005134", false, [], [], []⟩ frame1 (by decide)]
  decide

/-- C8 counterexample: 1024 consecutive resync bytes do **not** terminate the
session — the following valid frame is still parsed and acknowledged and the
socket is never ended, contradicting the claimed `ResyncExhausted` bound. -/
theorem claim8_resync_1024_counterexample :
    ((DS.run jpNone knownAll 0
      { buf := List.replicate 1024 49 ++ frame1,
        deviceImei := some "353691841005134" }).writes,
     (DS.run jpNone knownAll 0
      { buf := List.replicate 1024 49 ++ frame1,
        deviceImei := some "353691841005134" }).ended) = ([be32 1], false) :=
  ds_garbage_run_eval 1024

/-- C8 (amended): preamble resynchronisation is **unbounded** — for every
number `k` of leading nonzero garbage bytes (1023, 1024 or any other), the
garbage is discarded one byte at a time, the following valid frame is
accepted and acknowledged, and the session is never terminated; no
`ResyncExhausted` condition exists. -/
theorem claim8_resync_unbounded (k : Nat) :
    ((DS.run jpNone knownAll 0
      { buf := List.replicate k 49 ++ frame1,
        deviceImei := some "353691841005134" }).writes,
     (DS.run jpNone knownAll 0
      { buf := List.replicate k 49 ++ frame1,
        deviceImei := some "353691841005134" }).ended) = ([be32 1], false) :=
  ds_garbage_run_eval k

/-! Claim C9. -/

/-- A buffer whose 16-bit prefix is below 15 is never an IMEI packet. -/
theorem isImeiPacket_false_of_small (b : List Nat)
    (h : readU16BE b 0 < 15) : isImeiPacket b = false := by
  unfold isImeiPacket
  by_cases h4 : b.length < 4
  · rw [if_pos h4]
  · rw [if_neg h4]
    rw [if_neg (by omega)]

/-- Reading inside the taken prefix sees the original bytes. -/
theorem getD_take_of_lt (b : List Nat) (k i : Nat) (h : i < k) :
    (b.take k).getD i 0 = b.getD i 0 := by
  simp only [List.getD_eq_getElem?_getD, List.getElem?_take]
  rw [if_pos h]

/-- A zero 32-bit prefix means the first four bytes are all zero. -/
theorem bytes_zero_of_readU32BE_zero (b : List Nat) (h : readU32BE b 0 = 0) :
    b.getD 0 0 = 0 ∧ b.getD 1 0 = 0 ∧ b.getD 2 0 = 0 ∧ b.getD 3 0 = 0 := by
  unfold readU32BE at h
  simp only [Nat.zero_add] at h
  omega

/-- C9 counterexample: the very same login bytes produce the `0x01` login
acknowledgement when delivered in one chunk, but **no output at all** when
split after 8 bytes — the partial IMEI frame is eaten byte-by-byte by the
preamble resync, so the outputs depend on the TCP chunking. -/
theorem claim9_split_imei_counterexample :
    (DS.deliver jpNone knownAll 0 [imeiFrame] {}).writes = [[1]] ∧
    (DS.deliver jpNone knownAll 0 [imeiFrame.take 8, imeiFrame.drop 8]
      {}).writes = [] := by
  refine ⟨by decide, by decide⟩

/-- C9 (amended): chunking invariance fails for IMEI login frames
(counterexample) but holds for a single complete AVL data frame: splitting
the frame at any offset into two chunks yields exactly the state of one-chunk
delivery, because a partial AVL frame is never consumed. -/
theorem claim9_chunking (jp : List Nat → Option JsonObj)
    (known : String → Bool) (serverStart : Int) (k : Nat) (F : List Nat)
    (st : DS.St)
    (hbuf : st.buf = [])
    (hk : k < F.length)
    (hpre : readU32BE F 0 = 0)
    (hlen : F.length = 8 + readU32BE F 4 + 4)
    (hjp : jp (F.take k) = none) :
    DS.deliver jp known serverStart [F.take k, F.drop k] st =
    DS.deliver jp known serverStart [F] st := by
  obtain ⟨hb0, hb1, hb2, hb3⟩ := bytes_zero_of_readU32BE_zero F hpre
  have htklen : (F.take k).length = k := by
    rw [List.length_take]
    omega
  have hstep1 : DS.onData jp known serverStart st (F.take k) =
      { st with buf := F.take k } := by
    unfold DS.onData DS.run
    rw [hbuf]
    rw [show (([] : List Nat) ++ F.take k) = F.take k from List.nil_append _]
    by_cases h2 : (F.take k).length < 2
    · unfold DS.processBuffer
      rw [if_pos h2]
    · have h16 : readU16BE (F.take k) 0 < 15 := by
        unfold readU16BE
        rw [getD_take_of_lt F k 0 (by omega), getD_take_of_lt F k 1 (by omega)]
        omega
      unfold DS.processBuffer
      rw [if_neg h2]
      rw [if_neg (by simp [isImeiPacket_false_of_small _ h16])]
      rw [hjp]
      by_cases h8 : 8 ≤ (F.take k).length
      · rw [if_pos h8]
        have hpre2 : readU32BE (F.take k) 0 = 0 := by
          unfold readU32BE
          rw [getD_take_of_lt F k 0 (by omega), getD_take_of_lt F k 1 (by omega),
            getD_take_of_lt F k 2 (by omega), getD_take_of_lt F k 3 (by omega)]
          omega
        rw [if_neg (by simp [hpre2])]
        have hdl : readU32BE (F.take k) 4 = readU32BE F 4 := by
          unfold readU32BE
          rw [getD_take_of_lt F k 4 (by omega), getD_take_of_lt F k 5 (by omega),
            getD_take_of_lt F k 6 (by omega), getD_take_of_lt F k 7 (by omega)]
        rw [if_neg (by rw [hdl, htklen]; omega)]
      · rw [if_neg h8]
  unfold DS.deliver
  simp only [List.foldl_cons, List.foldl_nil]
  rw [hstep1]
  show DS.run jp known serverStart { st with buf := F.take k ++ F.drop k } =
    DS.run jp known serverStart { st with buf := st.buf ++ F }
  rw [List.take_append_drop, hbuf]
  rw [show (([] : List Nat) ++ F) = F from List.nil_append _]

/-- Witness for C9's chunk-transparency half: the one-record frame split after
10 bytes. -/
theorem claim9_chunking_witness :
    DS.deliver jpNone knownAll 0 [frame1.take 10, frame1.drop 10]
      { deviceImei := some "353691841005134" } =
    DS.deliver jpNone knownAll 0 [frame1]
      { deviceImei := some "353691841005134" } :=
  claim9_chunking jpNone knownAll 0 10 frame1
    { deviceImei := some "353691841005134" }
    rfl (by decide) (by decide) (by decide) rfl
